import Mathlib

/-!
Shallow embedding of the session aggregation and filtering pipeline of the
toronto-free-skates web application (source files `js/views.js` and
`js/app.js`), together with theorems checking the repository's
natural-language specification against it.

Modelling conventions:
* JavaScript strings are Lean `String`s; all comparisons and scans are done
  over `String.data : List Char`, with the Mathlib lexicographic order on
  `List Char` standing in for JavaScript's code-unit string comparison
  (`<`, `>=`, and `localeCompare`, which coincide with it on the
  zero-padded ASCII `YYYY-MM-DD` date strings the pipeline compares).
* JavaScript numbers holding kilometre distances are modelled as `ℚ`; the
  transcendental Haversine formula (`API.calculateDistance`) is abstracted
  into an explicit distance-function parameter `dist`, which every theorem
  quantifies over, so each theorem in particular covers the Haversine
  instance.
* Network effects are oracles: the per-rink schedule fetch of
  `API.fetchSchedule` is given its decoded payload (or a decode/network
  error) through an `Except`, and the 30-second timeout race of
  `API.fetchAllSessions` is a per-rink `SchedFetch` outcome.
* The module-level rink cache `API.rinksCache` is explicit state: the model
  of `fetchAllSessions` takes the cache contents and returns the updated
  cache, reproducing the in-place `rink.distance = distance` mutation of
  `views.js` line 874.
* `new Date()` is abstracted into explicit `todayStr` / `tomorrowStr`
  string parameters (the code only ever uses the formatted `YYYY-MM-DD`
  string).
-/

namespace TFS

/-- Value of a decimal digit character, as produced by `parseInt` on a
single digit. -/
def digitVal (c : Char) : Nat := c.toNat - '0'.toNat

/-- Model of matching the regex fragment `(AM|PM)` case-insensitively at the
head of a character list: `some true` for PM, `some false` for AM, `none`
when the optional group does not match (group 3 undefined). -/
def readAmPm : List Char → Option Bool
  | a :: b :: _ =>
    if (a = 'A' ∨ a = 'a') ∧ (b = 'M' ∨ b = 'm') then some false
    else if (a = 'P' ∨ a = 'p') ∧ (b = 'M' ∨ b = 'm') then some true
    else none
  | _ => none

/-- Model of the regex tail `\s*(AM|PM)?`: greedily skip whitespace, then
optionally read a meridiem marker. -/
def readMeridiem (rest : List Char) : Option Bool :=
  readAmPm (rest.dropWhile Char.isWhitespace)

/-- Attempt to match `\d\d:\d\d` (the two-digit-hour alternative of
`(\d{1,2}):(\d{2})`) at the head of the list, returning the hour value and
the meridiem flag. -/
def matchTwoDigit : List Char → Option (Nat × Option Bool)
  | c0 :: c1 :: ':' :: m1 :: m2 :: rest =>
    if c0.isDigit ∧ c1.isDigit ∧ m1.isDigit ∧ m2.isDigit then
      some (10 * digitVal c0 + digitVal c1, readMeridiem rest)
    else none
  | _ => none

/-- Attempt to match `\d:\d\d` (the one-digit-hour alternative, tried after
the two-digit alternative backtracks) at the head of the list. -/
def matchOneDigit : List Char → Option (Nat × Option Bool)
  | c0 :: ':' :: m1 :: m2 :: rest =>
    if c0.isDigit ∧ m1.isDigit ∧ m2.isDigit then
      some (digitVal c0, readMeridiem rest)
    else none
  | _ => none

/-- Match the regex `(\d{1,2}):(\d{2})\s*(AM|PM)?` anchored at the current
position: the greedy `{1,2}` quantifier tries two digits first and
backtracks to one. -/
def matchTimeAt (cs : List Char) : Option (Nat × Option Bool) :=
  match matchTwoDigit cs with
  | some r => some r
  | none => matchOneDigit cs

/-- Model of `timeStr.match(/(\d{1,2}):(\d{2})\s*(AM|PM)?/i)`: scan for the
leftmost position at which the pattern matches. -/
def findTime : List Char → Option (Nat × Option Bool)
  | [] => none
  | c :: rest =>
    match matchTimeAt (c :: rest) with
    | some r => some r
    | none => findTime rest

/-- Model of `API.parseTime` (`views.js` lines 975-989): falsy input and a
failed match return 0; otherwise the captured hour is adjusted by
`if (isPM && hours !== 12) hours += 12; if (isAM && hours === 12) hours = 0`. -/
def parseTime (timeStr : String) : Nat :=
  if timeStr = "" then 0
  else
    match findTime timeStr.data with
    | none => 0
    | some (h, mer) =>
      let isPM := mer = some true
      let isAM := mer = some false
      let h1 := if isPM ∧ h ≠ 12 then h + 12 else h
      let h2 := if isAM ∧ h1 = 12 then 0 else h1
      h2

/-- Lower-cased character data of a string, modelling
`String.prototype.toLowerCase` on the ASCII activity labels. -/
def lowerData (s : String) : List Char := s.data.map Char.toLower

/-- Check whether the first list occurs at the head of the second
(character-by-character equality). -/
def leadsWith : List Char → List Char → Bool
  | [], _ => true
  | _ :: _, [] => false
  | a :: as, b :: bs => a == b && leadsWith as bs

/-- Model of `String.prototype.includes`: the needle occurs contiguously
somewhere in the haystack. -/
def hasSub (hay needle : List Char) : Bool :=
  match hay with
  | [] => needle.isEmpty
  | _ :: t => leadsWith needle hay || hasSub t needle

/-- A rink record as produced by `API.fetchRinks` and carried through the
pipeline; `distance` models the optional `rink.distance` property that the
aggregator attaches (absent = `undefined`). -/
structure Rink where
  id : Nat
  name : String
  address : String
  rtype : String
  lat : ℚ
  lng : ℚ
  distance : Option ℚ
deriving DecidableEq

/-- A reference location `{lat, lng}`. -/
structure Loc where
  lat : ℚ
  lng : ℚ
deriving DecidableEq

/-- A session record as pushed by `API.fetchSchedule` (`views.js` lines
835-841): `activity` stores the raw `session.c` field (possibly absent). -/
structure Session where
  activity : Option String
  date : String
  time : String
  age : String
  facility : String
deriving DecidableEq

/-- One row of the upstream schedule payload, with Toronto's shorthand keys
`c` (activity), `d` (date), `t` (time), `age`, `f` (facility); `c` and
`age` may be absent. -/
structure Row where
  c : Option String
  d : String
  t : String
  age : Option String
  f : String
deriving DecidableEq

/-- One element of the decoded schedule payload array; `r` is `some rows`
exactly when the JavaScript checks `item.r && Array.isArray(item.r)`
succeed. -/
structure ScheduleItem where
  r : Option (List Row)
deriving DecidableEq

/-- The `(Rink, Session)` pairing produced by the aggregator. -/
structure SessionEntry where
  rink : Rink
  session : Session
deriving DecidableEq

/-- The filter configuration assembled by `FilterSettings.getFilters`
(`app.js` lines 1217-1227). Absent (`undefined`/`null`) values are `none`;
the string-valued filters use `""` for the falsy empty default. -/
structure Filters where
  maxDistance : Option ℚ
  anyDistance : Bool
  dateFilter : String
  filterDate : Option String
  timeOfDay : String
  rinkType : String
  timeFilter : String
deriving DecidableEq

/-- Result record `{sessions, rinks}` of `API.fetchAllSessions`. -/
@[ext]
structure FetchResult where
  sessions : List SessionEntry
  rinks : List Rink
deriving DecidableEq

/-- Activity-type filter of `API.fetchSchedule` (`views.js` lines 833-834):
`(session.c || '').toLowerCase()` must contain `"leisure skate"` or
`"leisure ice"`. -/
def keepRow (row : Row) : Bool :=
  hasSub (lowerData (row.c.getD "")) "leisure skate".data ||
  hasSub (lowerData (row.c.getD "")) "leisure ice".data

/-- The session record pushed for a retained row (`views.js` lines
835-841): `age` defaults to `"All Ages"`. -/
def mkSession (row : Row) : Session :=
  { activity := row.c
    date := row.d
    time := row.t
    age := row.age.getD "All Ages"
    facility := row.f }

/-- Session extraction loop of `API.fetchSchedule` (`views.js` lines
826-846): iterate over the payload items, and over each item's `r` rows,
pushing the retained sessions in order. -/
def extractSessions (data : List ScheduleItem) : List Session :=
  data.foldl
    (fun acc it =>
      match it.r with
      | some rows =>
        rows.foldl (fun acc2 row => if keepRow row then acc2 ++ [mkSession row] else acc2) acc
      | none => acc)
    []

/-- Model of `API.fetchSchedule` (`views.js` lines 793-853) given the
decoded payload: any network/decode/parse error (the `catch` path, and the
`!response.ok` path) yields `[]`; a successful decode runs the extraction
loop. -/
def fetchSchedule (payload : Except Unit (List ScheduleItem)) : List Session :=
  match payload with
  | .ok items => extractSessions items
  | .error _ => []

/-- Outcome of racing one rink's schedule promise against the 30-second
timeout in `API.fetchAllSessions` (`views.js` lines 911-920): either the
fetch resolved (with its decoded payload or an internal error, both handled
inside `fetchSchedule`), or the timeout rejected the race. -/
inductive SchedFetch where
  | resolved (payload : Except Unit (List ScheduleItem))
  | timedOut

/-- Session list a rink's fetch outcome contributes: a resolved fetch
contributes whatever `fetchSchedule` returned, a timed-out one contributes
nothing (its `Promise.allSettled` slot is `rejected` and is skipped). -/
def contribSessions (outcome : Nat → SchedFetch) (id : Nat) : List Session :=
  match outcome id with
  | .resolved p => fetchSchedule p
  | .timedOut => []

/-- Model of `filters.maxDistance || 10` (`views.js` line 868): both an
absent and a falsy `0` value fall back to the 10 km default. -/
def maxDistanceOr10 (md : Option ℚ) : ℚ :=
  match md with
  | none => 10
  | some d => if d = 0 then 10 else d

/-- Distance stage of `API.fetchAllSessions` (`views.js` lines 865-886),
returning the filtered rink list together with the updated cache contents:
when a location is supplied and `anyDistance` is false, the filter callback
assigns `rink.distance = distance` on every cached rink object (mutating
the cache) and keeps the rinks within `maxDistance`; when a location is
supplied and `anyDistance` is true, fresh copies with `distance` attached
are built (the cache is untouched); with no location the cached rinks pass
through unchanged. -/
def distanceStage (dist : ℚ → ℚ → ℚ → ℚ → ℚ) (cache : List Rink) (userLocation : Option Loc)
    (filters : Filters) : List Rink × List Rink :=
  match userLocation with
  | some loc =>
    if filters.anyDistance = false then
      let maxDistance := maxDistanceOr10 filters.maxDistance
      let cache' := cache.map
        (fun rink => { rink with distance := some (dist loc.lat loc.lng rink.lat rink.lng) })
      (cache'.filter (fun rink => decide (dist loc.lat loc.lng rink.lat rink.lng ≤ maxDistance)),
        cache')
    else
      (cache.map
        (fun rink => { rink with distance := some (dist loc.lat loc.lng rink.lat rink.lng) }),
        cache)
  | none => (cache, cache)

/-- Rink-type stage of `API.fetchAllSessions` (`views.js` lines 889-891):
a truthy `filters.rinkType` keeps only rinks of that type. -/
def rinkTypeStage (rinks : List Rink) (filters : Filters) : List Rink :=
  if filters.rinkType ≠ "" then rinks.filter (fun rink => rink.rtype = filters.rinkType)
  else rinks

/-- The rink list `filteredRinks` that `API.fetchAllSessions` maps the
schedule fetches over (`views.js` line 894) and returns as `rinks`
(`views.js` line 940): distance exclusion followed by type exclusion. -/
def filteredRinksOf (dist : ℚ → ℚ → ℚ → ℚ → ℚ) (cache : List Rink) (userLocation : Option Loc)
    (filters : Filters) : List Rink :=
  rinkTypeStage (distanceStage dist cache userLocation filters).1 filters

/-- The rinks for which `API.fetchAllSessions` issues a schedule fetch: the
`filteredRinks` that `schedulePromises` maps over (`views.js` line 894);
when the catalog is empty the function returns at line 862 before any fetch
is attempted. -/
def scheduleFetchTargets (dist : ℚ → ℚ → ℚ → ℚ → ℚ) (cache : List Rink)
    (userLocation : Option Loc) (filters : Filters) : List Rink :=
  if cache.isEmpty then [] else filteredRinksOf dist cache userLocation filters

/-- Fan-in loop over the `Promise.allSettled` results (`views.js` lines
923-928): fulfilled slots are appended in order, rejected slots are
skipped. -/
def settleAll (results : List (Except Unit (List SessionEntry))) : List SessionEntry :=
  results.foldl (fun acc res => match res with | .ok v => acc ++ v | .error _ => acc) []

/-- The rink snapshot embedded in every session entry of a rink
(`views.js` lines 897-905): a field-by-field copy including the attached
`distance`. -/
def snapshotOf (rink : Rink) : Rink :=
  { id := rink.id
    name := rink.name
    address := rink.address
    rtype := rink.rtype
    lat := rink.lat
    lng := rink.lng
    distance := rink.distance }

/-- Sort key comparison of the comparator at `views.js` lines 934-938:
ascending session date (string comparison), ties broken by parsed hour. -/
def entryKeyLe (a b : SessionEntry) : Prop :=
  a.session.date.data < b.session.date.data ∨
    (a.session.date.data = b.session.date.data ∧
      parseTime a.session.time ≤ parseTime b.session.time)

instance : DecidableRel entryKeyLe := fun a b => by
  unfold entryKeyLe; infer_instance

/-- Model of `sessions.sort(comparator)` (`views.js` lines 934-938): a
stable sort by the `(date, parsed hour)` key, matching the stable
`Array.prototype.sort` of the source. -/
def sortEntries (sessions : List SessionEntry) : List SessionEntry :=
  List.insertionSort entryKeyLe sessions

/-- Model of `API.applyTimeFilters` (`views.js` lines 946-970); `todayStr`
stands for the locally formatted `YYYY-MM-DD` date of `new Date()`. -/
def applyTimeFilters (sessions : List SessionEntry) (filters : Filters) (todayStr : String) :
    List SessionEntry :=
  sessions.filter fun item =>
    let session := item.session
    let todOk : Bool :=
      if filters.timeOfDay ≠ "" ∧ filters.timeOfDay ≠ "all" then
        let hour := parseTime session.time
        if filters.timeOfDay = "morning" ∧ (hour < 0 ∨ hour ≥ 12) then false
        else if filters.timeOfDay = "afternoon" ∧ (hour < 12 ∨ hour ≥ 17) then false
        else if filters.timeOfDay = "evening" ∧ (hour < 17 ∨ hour ≥ 24) then false
        else true
      else true
    let tfOk : Bool :=
      if filters.timeFilter ≠ "" ∧ filters.timeFilter ≠ "all" then
        if filters.timeFilter = "upcoming" ∧ session.date.data < todayStr.data then false
        else if filters.timeFilter = "past" ∧ ¬(session.date.data < todayStr.data) then false
        else true
      else true
    todOk && tfOk

/-- Model of `API.fetchAllSessions` (`views.js` lines 858-941). Parameters
abstract the effects: `dist` the Haversine distance, `outcome` the result
of each rink's schedule fetch raced against its timeout, `todayStr` the
formatted current date used by `applyTimeFilters`, and `cache` the current
contents of `API.rinksCache` (assumed populated by `fetchRinks`). Returns
the `{sessions, rinks}` result together with the cache contents after the
call. -/
def fetchAllSessions (dist : ℚ → ℚ → ℚ → ℚ → ℚ) (outcome : Nat → SchedFetch)
    (todayStr : String) (cache : List Rink) (userLocation : Option Loc) (filters : Filters) :
    FetchResult × List Rink :=
  if cache.isEmpty then ({ sessions := [], rinks := [] }, cache)
  else
    let staged := distanceStage dist cache userLocation filters
    let cache' := staged.2
    let filteredRinks := rinkTypeStage staged.1 filters
    let results : List (Except Unit (List SessionEntry)) :=
      filteredRinks.map fun rink =>
        match outcome rink.id with
        | .timedOut => .error ()
        | .resolved p =>
          .ok ((fetchSchedule p).map fun session => { rink := snapshotOf rink, session := session })
    let sessions := applyTimeFilters (settleAll results) filters todayStr
    ({ sessions := sortEntries sessions, rinks := filteredRinks }, cache')

/-- Model of `FilterSettings.getFilterDate` (`app.js` lines 1196-1212),
with the `new Date()`-derived strings passed in as `todayStr` and
`tomorrowStr`. -/
def getFilterDate (dateFilter : String) (selectedDate : Option String)
    (todayStr tomorrowStr : String) : Option String :=
  if dateFilter = "any" then none
  else if dateFilter = "today" then some todayStr
  else if dateFilter = "tomorrow" then some tomorrowStr
  else if dateFilter = "pick" ∧ selectedDate.isSome then selectedDate
  else none

/-- Unfolding of the inner row loop of `extractSessions`: pushing onto an
accumulator appends the retained rows in order. -/
theorem rowFold_eq (rows : List Row) (acc : List Session) :
    rows.foldl (fun acc2 row => if keepRow row then acc2 ++ [mkSession row] else acc2) acc
      = acc ++ (rows.filter keepRow).map mkSession := by
  induction rows generalizing acc with
  | nil => simp
  | cons row rest ih =>
    by_cases h : keepRow row <;> simp [List.filter_cons, h, ih, List.append_assoc]

/-- Unfolding of the outer item loop of `extractSessions`. -/
theorem itemFold_eq (data : List ScheduleItem) (acc : List Session) :
    (data.foldl
      (fun acc it =>
        match it.r with
        | some rows =>
          rows.foldl (fun acc2 row => if keepRow row then acc2 ++ [mkSession row] else acc2) acc
        | none => acc)
      acc)
      = acc ++ data.flatMap (fun it => ((it.r.getD []).filter keepRow).map mkSession) := by
  induction data generalizing acc with
  | nil => simp
  | cons it rest ih =>
    cases h : it.r with
    | none => simp [h, ih]
    | some rows =>
      simp only [List.foldl_cons, List.flatMap_cons, h, Option.getD_some]
      rw [rowFold_eq, ih]
      simp [List.append_assoc]

/-- Characterization of the session extraction loop: the retained sessions
are exactly the rows passing the leisure-label filter, in payload order. -/
theorem extractSessions_eq (data : List ScheduleItem) :
    extractSessions data
      = data.flatMap (fun it => ((it.r.getD []).filter keepRow).map mkSession) := by
  simpa [extractSessions] using itemFold_eq data []

/-- The fan-in loop keeps fulfilled contributions in order and skips
rejected ones. -/
theorem settleAll_foldl (results : List (Except Unit (List SessionEntry)))
    (acc : List SessionEntry) :
    results.foldl (fun acc res => match res with | .ok v => acc ++ v | .error _ => acc) acc
      = acc ++ results.flatMap (fun res => match res with | .ok v => v | .error _ => []) := by
  induction results generalizing acc with
  | nil => simp
  | cons res rest ih =>
    cases res with
    | ok v => simp [ih, List.append_assoc]
    | error e => simp [ih]

/-- `settleAll` flattens exactly the fulfilled slots. -/
theorem settleAll_eq (results : List (Except Unit (List SessionEntry))) :
    settleAll results
      = results.flatMap (fun res => match res with | .ok v => v | .error _ => []) := by
  simpa [settleAll] using settleAll_foldl results []

instance : IsTrans SessionEntry entryKeyLe := by
  constructor
  intro a b c hab hbc
  rcases hab with hab | ⟨hab, hab'⟩ <;> rcases hbc with hbc | ⟨hbc, hbc'⟩
  · exact Or.inl (lt_trans hab hbc)
  · exact Or.inl (hbc ▸ hab)
  · exact Or.inl (hab ▸ hbc)
  · exact Or.inr ⟨hab.trans hbc, le_trans hab' hbc'⟩

instance : IsTotal SessionEntry entryKeyLe := by
  constructor
  intro a b
  rcases lt_trichotomy a.session.date.data b.session.date.data with h | h | h
  · exact Or.inl (Or.inl h)
  · rcases Nat.le_total (parseTime a.session.time) (parseTime b.session.time) with h' | h'
    · exact Or.inl (Or.inr ⟨h, h'⟩)
    · exact Or.inr (Or.inr ⟨h.symm, h'⟩)
  · exact Or.inr (Or.inl h)

/-- The sorting stage returns a list sorted by the `(date, parsed hour)`
key. -/
theorem sortEntries_sorted (sessions : List SessionEntry) :
    List.Sorted entryKeyLe (sortEntries sessions) :=
  List.sorted_insertionSort entryKeyLe sessions

/-- The sessions component of `fetchAllSessions` is the filter-and-sort of
the per-rink contributions over the filtered rink list, where each rink
contributes the sessions of its fetch outcome. -/
theorem fetchAllSessions_sessions_eq (dist : ℚ → ℚ → ℚ → ℚ → ℚ) (outcome : Nat → SchedFetch)
    (todayStr : String) (cache : List Rink) (userLocation : Option Loc) (filters : Filters) :
    (fetchAllSessions dist outcome todayStr cache userLocation filters).1.sessions
      = sortEntries (applyTimeFilters
          ((filteredRinksOf dist cache userLocation filters).flatMap
            (fun rink => (contribSessions outcome rink.id).map
              (fun session => { rink := snapshotOf rink, session := session })))
          filters todayStr) := by
  by_cases hc : cache.isEmpty
  · have hnil : cache = [] := List.isEmpty_iff.mp hc
    subst hnil
    have hfr : filteredRinksOf dist [] userLocation filters = [] := by
      cases userLocation <;>
        simp [filteredRinksOf, distanceStage, rinkTypeStage, ite_self, apply_ite]
    simp [fetchAllSessions, hfr, applyTimeFilters, sortEntries, List.insertionSort]
  · simp only [fetchAllSessions, if_neg hc]
    rw [settleAll_eq]
    unfold filteredRinksOf
    rw [List.flatMap_map]
    have hfun : ∀ rink : Rink,
        (match
          (match outcome rink.id with
            | SchedFetch.timedOut => (Except.error () : Except Unit (List SessionEntry))
            | SchedFetch.resolved p =>
              Except.ok ((fetchSchedule p).map
                (fun session => { rink := snapshotOf rink, session := session }))) with
          | Except.ok v => v
          | Except.error _ => [])
          = (contribSessions outcome rink.id).map
              (fun session => ({ rink := snapshotOf rink, session := session } : SessionEntry)) := by
      intro rink
      cases houtcome : outcome rink.id <;> simp [contribSessions, houtcome]
    rw [funext hfun]

/-- The rinks component of `fetchAllSessions` is exactly the list of rinks
whose schedules were fetched. -/
theorem fetchAllSessions_rinks_eq (dist : ℚ → ℚ → ℚ → ℚ → ℚ) (outcome : Nat → SchedFetch)
    (todayStr : String) (cache : List Rink) (userLocation : Option Loc) (filters : Filters) :
    (fetchAllSessions dist outcome todayStr cache userLocation filters).1.rinks
      = scheduleFetchTargets dist cache userLocation filters := by
  by_cases hc : cache.isEmpty
  · simp [fetchAllSessions, scheduleFetchTargets, hc]
  · simp [fetchAllSessions, scheduleFetchTargets, hc, filteredRinksOf]

/-- The cache component of `fetchAllSessions`: only the distance stage ever
writes to the cached rinks. -/
theorem fetchAllSessions_cache_eq (dist : ℚ → ℚ → ℚ → ℚ → ℚ) (outcome : Nat → SchedFetch)
    (todayStr : String) (cache : List Rink) (userLocation : Option Loc) (filters : Filters) :
    (fetchAllSessions dist outcome todayStr cache userLocation filters).2
      = if cache.isEmpty then cache else (distanceStage dist cache userLocation filters).2 := by
  by_cases hc : cache.isEmpty <;> simp [fetchAllSessions, hc]

/-- The rink-type stage only removes rinks. -/
theorem mem_of_mem_rinkTypeStage {rink : Rink} {rinks : List Rink} {filters : Filters}
    (h : rink ∈ rinkTypeStage rinks filters) : rink ∈ rinks := by
  unfold rinkTypeStage at h
  split at h
  · exact (List.mem_filter.mp h).1
  · exact h

/-- Fetch targets are filtered rinks. -/
theorem mem_filteredRinksOf_of_mem_targets {dist : ℚ → ℚ → ℚ → ℚ → ℚ} {cache : List Rink}
    {userLocation : Option Loc} {filters : Filters} {rink : Rink}
    (h : rink ∈ scheduleFetchTargets dist cache userLocation filters) :
    rink ∈ filteredRinksOf dist cache userLocation filters := by
  unfold scheduleFetchTargets at h
  split at h
  · exact absurd h (List.not_mem_nil rink)
  · exact h

/-- With a reference location and `anyDistance` false, every rink that
survives the filtering stages is within the effective distance limit. -/
theorem dist_le_of_mem_filteredRinks (dist : ℚ → ℚ → ℚ → ℚ → ℚ) (cache : List Rink) (loc : Loc)
    (filters : Filters) (hAny : filters.anyDistance = false) (rink : Rink)
    (h : rink ∈ filteredRinksOf dist cache (some loc) filters) :
    dist loc.lat loc.lng rink.lat rink.lng ≤ maxDistanceOr10 filters.maxDistance := by
  unfold filteredRinksOf at h
  have h1 := mem_of_mem_rinkTypeStage h
  simp only [distanceStage, hAny, if_true, List.mem_filter, decide_eq_true_eq] at h1
  exact h1.2

/-- C3: for every catalog and every partition of the per-rink schedule
fetches into successes, failures, and timeouts, `fetchAllSessions` returns
normally with exactly the session entries derived from the successful
rinks' schedules; a failing or timed-out rink contributes an empty session
list only for itself, and its failure does not cancel or alter any sibling
rink's contribution (two outcome assignments with the same per-rink session
lists produce identical results). -/
theorem fetchAllSessions_partial_failure_isolation (dist : ℚ → ℚ → ℚ → ℚ → ℚ)
    (outcome : Nat → SchedFetch) (todayStr : String) (cache : List Rink)
    (userLocation : Option Loc) (filters : Filters) :
    (fetchAllSessions dist outcome todayStr cache userLocation filters).1.sessions
      = sortEntries (applyTimeFilters
          ((filteredRinksOf dist cache userLocation filters).flatMap
            (fun rink => (contribSessions outcome rink.id).map
              (fun session => { rink := snapshotOf rink, session := session })))
          filters todayStr)
    ∧ ∀ outcome' : Nat → SchedFetch,
        (∀ id, contribSessions outcome id = contribSessions outcome' id) →
        fetchAllSessions dist outcome todayStr cache userLocation filters
          = fetchAllSessions dist outcome' todayStr cache userLocation filters := by
  refine ⟨fetchAllSessions_sessions_eq dist outcome todayStr cache userLocation filters, ?_⟩
  intro outcome' h
  have hfun : (fun rink : Rink => (contribSessions outcome rink.id).map
        (fun session => ({ rink := snapshotOf rink, session := session } : SessionEntry)))
      = (fun rink : Rink => (contribSessions outcome' rink.id).map
        (fun session => ({ rink := snapshotOf rink, session := session } : SessionEntry))) :=
    funext fun rink => by rw [h rink.id]
  refine Prod.ext ?_ ?_
  · refine FetchResult.ext ?_ ?_
    · rw [fetchAllSessions_sessions_eq, fetchAllSessions_sessions_eq, hfun]
    · rw [fetchAllSessions_rinks_eq, fetchAllSessions_rinks_eq]
  · rw [fetchAllSessions_cache_eq, fetchAllSessions_cache_eq]

/-- C7: the sessions list returned by `fetchAllSessions` is sorted
ascending by the key (session date string under lexical order, then parsed
hour of the session time string). -/
theorem fetchAllSessions_sessions_sorted (dist : ℚ → ℚ → ℚ → ℚ → ℚ)
    (outcome : Nat → SchedFetch) (todayStr : String) (cache : List Rink)
    (userLocation : Option Loc) (filters : Filters) :
    List.Sorted
      (fun a b : SessionEntry =>
        a.session.date.data < b.session.date.data ∨
          (a.session.date.data = b.session.date.data ∧
            parseTime a.session.time ≤ parseTime b.session.time))
      (fetchAllSessions dist outcome todayStr cache userLocation filters).1.sessions := by
  rw [fetchAllSessions_sessions_eq]
  exact sortEntries_sorted _

/-- C4: with a reference location and `anyDistance` false, every rink in
the rink list returned by `fetchAllSessions` — which is exactly the list of
rinks whose schedules are fetched, computed before any fetch — lies within
the effective distance limit; contrapositively, a rink whose distance
exceeds the limit is excluded from both. -/
theorem fetchAllSessions_distance_exclusion (dist : ℚ → ℚ → ℚ → ℚ → ℚ)
    (outcome : Nat → SchedFetch) (todayStr : String) (cache : List Rink) (loc : Loc)
    (filters : Filters) (hAny : filters.anyDistance = false) :
    (fetchAllSessions dist outcome todayStr cache (some loc) filters).1.rinks
      = scheduleFetchTargets dist cache (some loc) filters
    ∧ ∀ rink ∈ scheduleFetchTargets dist cache (some loc) filters,
        dist loc.lat loc.lng rink.lat rink.lng ≤ maxDistanceOr10 filters.maxDistance := by
  refine ⟨fetchAllSessions_rinks_eq dist outcome todayStr cache (some loc) filters, ?_⟩
  intro rink h
  exact dist_le_of_mem_filteredRinks dist cache loc filters hAny rink
    (mem_filteredRinksOf_of_mem_targets h)

/-- Two configurations with `anyDistance` true have equal distance stages:
the `maxDistance` branch is not taken. -/
theorem distanceStage_anyDistance_congr {dist : ℚ → ℚ → ℚ → ℚ → ℚ} {cache : List Rink}
    {userLocation : Option Loc} {f g : Filters} (hf : f.anyDistance = true)
    (hg : g.anyDistance = true) :
    distanceStage dist cache userLocation f = distanceStage dist cache userLocation g := by
  unfold distanceStage
  cases userLocation with
  | none => rfl
  | some loc => simp [hf, hg]

/-- Two configurations with `anyDistance` false and equal effective
distance limits have equal distance stages. -/
theorem distanceStage_congr {dist : ℚ → ℚ → ℚ → ℚ → ℚ} {cache : List Rink}
    {userLocation : Option Loc} {f g : Filters} (hAny : f.anyDistance = g.anyDistance)
    (hMax : maxDistanceOr10 f.maxDistance = maxDistanceOr10 g.maxDistance) :
    distanceStage dist cache userLocation f = distanceStage dist cache userLocation g := by
  unfold distanceStage
  cases userLocation with
  | none => rfl
  | some loc => simp only [hAny, hMax]

/-- The rink-type stage reads only `rinkType`. -/
theorem rinkTypeStage_congr {rinks : List Rink} {f g : Filters}
    (h : f.rinkType = g.rinkType) : rinkTypeStage rinks f = rinkTypeStage rinks g := by
  unfold rinkTypeStage
  simp only [h]

/-- The time-filter stage reads only `timeOfDay` and `timeFilter`. -/
theorem applyTimeFilters_congr {sessions : List SessionEntry} {f g : Filters}
    {todayStr : String} (h1 : f.timeOfDay = g.timeOfDay) (h2 : f.timeFilter = g.timeFilter) :
    applyTimeFilters sessions f todayStr = applyTimeFilters sessions g todayStr := by
  unfold applyTimeFilters
  simp only [h1, h2]

/-- `fetchAllSessions` depends on the configuration only through the
distance stage, `rinkType`, `timeOfDay`, and `timeFilter`. -/
theorem fetchAllSessions_filters_congr (dist : ℚ → ℚ → ℚ → ℚ → ℚ) (outcome : Nat → SchedFetch)
    (todayStr : String) (cache : List Rink) (userLocation : Option Loc) {f g : Filters}
    (hStage : distanceStage dist cache userLocation f = distanceStage dist cache userLocation g)
    (hType : f.rinkType = g.rinkType) (hTod : f.timeOfDay = g.timeOfDay)
    (hTf : f.timeFilter = g.timeFilter) :
    fetchAllSessions dist outcome todayStr cache userLocation f
      = fetchAllSessions dist outcome todayStr cache userLocation g := by
  have hfr : filteredRinksOf dist cache userLocation f = filteredRinksOf dist cache userLocation g := by
    unfold filteredRinksOf
    rw [hStage, rinkTypeStage_congr hType]
  refine Prod.ext ?_ ?_
  · refine FetchResult.ext ?_ ?_
    · rw [fetchAllSessions_sessions_eq, fetchAllSessions_sessions_eq, hfr,
        applyTimeFilters_congr hTod hTf]
    · rw [fetchAllSessions_rinks_eq, fetchAllSessions_rinks_eq]
      unfold scheduleFetchTargets
      rw [hfr]
  · rw [fetchAllSessions_cache_eq, fetchAllSessions_cache_eq, hStage]

/-- C8: when `anyDistance` is true the value of `maxDistance` is ignored
entirely — the full result of `fetchAllSessions` (sessions, rinks, and
cache state) is identical for any two `maxDistance` values. -/
theorem fetchAllSessions_anyDistance_ignores_maxDistance (dist : ℚ → ℚ → ℚ → ℚ → ℚ)
    (outcome : Nat → SchedFetch) (todayStr : String) (cache : List Rink)
    (userLocation : Option Loc) (f : Filters) (d₁ d₂ : Option ℚ) :
    fetchAllSessions dist outcome todayStr cache userLocation
        { f with anyDistance := true, maxDistance := d₁ }
      = fetchAllSessions dist outcome todayStr cache userLocation
        { f with anyDistance := true, maxDistance := d₂ } :=
  fetchAllSessions_filters_congr dist outcome todayStr cache userLocation
    (distanceStage_anyDistance_congr rfl rfl) rfl rfl rfl

/-- C10: with `anyDistance` false, an absent `maxDistance` and a falsy `0`
both behave as the 10 km default — the result equals the one for an
explicit `maxDistance` of 10, and with a reference location every returned
rink is within 10 km. -/
theorem fetchAllSessions_maxDistance_defaults_to_10 (dist : ℚ → ℚ → ℚ → ℚ → ℚ)
    (outcome : Nat → SchedFetch) (todayStr : String) (cache : List Rink)
    (userLocation : Option Loc) (loc : Loc) (f : Filters) :
    (fetchAllSessions dist outcome todayStr cache userLocation
        { f with anyDistance := false, maxDistance := none }
      = fetchAllSessions dist outcome todayStr cache userLocation
        { f with anyDistance := false, maxDistance := some 10 })
    ∧ (fetchAllSessions dist outcome todayStr cache userLocation
        { f with anyDistance := false, maxDistance := some 0 }
      = fetchAllSessions dist outcome todayStr cache userLocation
        { f with anyDistance := false, maxDistance := some 10 })
    ∧ ∀ rink ∈ (fetchAllSessions dist outcome todayStr cache (some loc)
        { f with anyDistance := false, maxDistance := none }).1.rinks,
        dist loc.lat loc.lng rink.lat rink.lng ≤ 10 := by
  have hMax : maxDistanceOr10 (none : Option ℚ) = maxDistanceOr10 (some 10) := by
    simp [maxDistanceOr10]
  have hMax0 : maxDistanceOr10 (some (0 : ℚ)) = maxDistanceOr10 (some 10) := by
    simp [maxDistanceOr10]
  refine ⟨fetchAllSessions_filters_congr dist outcome todayStr cache userLocation
      (distanceStage_congr rfl hMax) rfl rfl rfl,
    fetchAllSessions_filters_congr dist outcome todayStr cache userLocation
      (distanceStage_congr rfl hMax0) rfl rfl rfl, ?_⟩
  intro rink h
  rw [fetchAllSessions_rinks_eq] at h
  exact dist_le_of_mem_filteredRinks dist cache loc _ rfl rink
    (mem_filteredRinksOf_of_mem_targets h)

/-- C6: for enum-valued configurations, `applyTimeFilters` retains an entry
iff its parsed hour lies in the selected time-of-day bucket (morning
`[0,12)`, afternoon `[12,17)`, evening `[17,24)`, `all` unrestricted) and
its date string lies on the selected side of today's date string under
lexical comparison (`upcoming` keeps `date >= today`, `past` keeps
`date < today`, `all` unrestricted). -/
theorem applyTimeFilters_spec (sessions : List SessionEntry) (filters : Filters)
    (todayStr : String) (e : SessionEntry)
    (hTod : filters.timeOfDay = "all" ∨ filters.timeOfDay = "morning" ∨
      filters.timeOfDay = "afternoon" ∨ filters.timeOfDay = "evening")
    (hTf : filters.timeFilter = "all" ∨ filters.timeFilter = "upcoming" ∨
      filters.timeFilter = "past") :
    e ∈ applyTimeFilters sessions filters todayStr ↔
      e ∈ sessions ∧
      (filters.timeOfDay = "morning" →
        0 ≤ parseTime e.session.time ∧ parseTime e.session.time < 12) ∧
      (filters.timeOfDay = "afternoon" →
        12 ≤ parseTime e.session.time ∧ parseTime e.session.time < 17) ∧
      (filters.timeOfDay = "evening" →
        17 ≤ parseTime e.session.time ∧ parseTime e.session.time < 24) ∧
      (filters.timeFilter = "upcoming" → todayStr.data ≤ e.session.date.data) ∧
      (filters.timeFilter = "past" → e.session.date.data < todayStr.data) := by
  obtain h1 | h1 | h1 | h1 := hTod <;> obtain h2 | h2 | h2 := hTf <;>
    simp [applyTimeFilters, List.mem_filter, h1, h2, not_lt, Nat.not_lt, and_assoc]

/-- A concrete rink at the origin. -/
def rinkA : Rink := ⟨1, "Rink A", "1 A St", "Outdoor", 0, 0, none⟩

/-- A concrete rink at latitude 50. -/
def rinkFar : Rink := ⟨2, "Rink B", "2 B St", "Outdoor", 50, 0, none⟩

/-- A concrete reference location at the origin. -/
def locZero : Loc := ⟨0, 0⟩

/-- A concrete distance function that is constantly 1 km. -/
def dist1 : ℚ → ℚ → ℚ → ℚ → ℚ := fun _ _ _ _ => 1

/-- A concrete distance function returning the rink's latitude, giving two
test rinks distances 0 and 50. -/
def distLat : ℚ → ℚ → ℚ → ℚ → ℚ := fun _ _ lat _ => lat

/-- A schedule row carrying a leisure-skate activity label. -/
def leisureRow : Row := ⟨some "Leisure Skate", "2024-01-05", "3:15 PM", none, "F"⟩

/-- A schedule row carrying a non-leisure activity label. -/
def shinnyRow : Row := ⟨some "Shinny Hockey", "2024-01-05", "4:15 PM", none, "F"⟩

/-- An outcome assignment where every rink's fetch resolves with a payload
holding one leisure row and one shinny row. -/
def oneSession : Nat → SchedFetch :=
  fun _ => .resolved (.ok [⟨some [leisureRow, shinnyRow]⟩])

/-- An outcome assignment where every rink's fetch times out. -/
def timeoutAll : Nat → SchedFetch := fun _ => .timedOut

/-- An outcome assignment where every rink's fetch resolves but fails
internally (network/decode error caught inside `fetchSchedule`). -/
def errorAll : Nat → SchedFetch := fun _ => .resolved (.error ())

/-- The default filter configuration of `FilterSettings.defaults`
(`app.js` lines 993-1000, with `maxDistance` 10). -/
def fDefault : Filters := ⟨some 10, false, "any", none, "all", "", "all"⟩

/-- A configuration selecting `dateFilter = 'today'` whose `filterDate` has
been resolved (by `getFilterDate`) to `2024-01-01`. -/
def fToday : Filters := { fDefault with dateFilter := "today", filterDate := some "2024-01-01" }

/-- C1: the resolved filter date is computed by `getFilterDate` and passed
to the API, but the pipeline never reads `filterDate` or `dateFilter`:
`applyTimeFilters` is invariant under arbitrary changes to both fields, and
a concrete `fetchAllSessions` call with `dateFilter = 'today'` resolved to
`2024-01-01` retains a session dated `2024-01-05`. -/
theorem dateFilter_never_applied :
    getFilterDate "today" none "2024-01-01" "2024-01-02" = some "2024-01-01" ∧
    (∀ (sessions : List SessionEntry) (f : Filters) (todayStr : String)
        (df df' : String) (fd fd' : Option String),
        applyTimeFilters sessions { f with dateFilter := df, filterDate := fd } todayStr
          = applyTimeFilters sessions { f with dateFilter := df', filterDate := fd' } todayStr) ∧
    ((fetchAllSessions dist1 oneSession "2024-01-01" [rinkA] none fToday).1.sessions.map
      (fun e => e.session.date)) = ["2024-01-05"] := by
  refine ⟨by decide, ?_, by decide⟩
  intro sessions f todayStr df df' fd fd'
  rfl

/-- C2 counterexample: the match requires minutes, so `"3 PM"` (of the
claimed form `H` with an `AM`/`PM` suffix) parses to 0 rather than 15, and
an hour above 12 with a `PM` suffix yields 25, outside `[0,23]`. -/
theorem parseTime_claim_cex :
    parseTime "3 PM" = 0 ∧ parseTime "3 PM" ≠ 15 ∧
    parseTime "13:00 PM" = 25 ∧ ¬ parseTime "13:00 PM" ≤ 23 := by decide

/-- C2 (amended): `parseTime` extracts the first substring of the form
`H:MM` (one- or two-digit hour, minutes required) optionally suffixed
`AM`/`PM` and returns the adjusted hour; on no match (including the empty
string) it returns 0; the result lies in `[0,23]` whenever the matched hour
is at most 12; noon `12:MM PM` maps to 12 and midnight `12:MM AM` maps
to 0; the spec's four cited examples hold. -/
theorem parseTime_spec :
    parseTime "12:00 PM" = 12 ∧ parseTime "12:00 AM" = 0 ∧
    parseTime "3:15 PM" = 15 ∧ parseTime "garbage" = 0 ∧
    (∀ s : String, findTime s.data = none → parseTime s = 0) ∧
    (∀ (s : String) (h : Nat) (mer : Option Bool),
        findTime s.data = some (h, mer) → h ≤ 12 → parseTime s ≤ 23) ∧
    (∀ (s : String) (mer : Option Bool),
        findTime s.data = some (12, mer) →
          (mer = some true → parseTime s = 12) ∧ (mer = some false → parseTime s = 0)) := by
  refine ⟨by decide, by decide, by decide, by decide, ?_, ?_, ?_⟩
  · intro s hnone
    unfold parseTime
    by_cases hs : s = ""
    · simp [hs]
    · simp [hs, hnone]
  · intro s h mer hsome hle
    have hs : s ≠ "" := by
      rintro rfl
      simp [findTime] at hsome
    unfold parseTime
    rw [if_neg hs, hsome]
    rcases mer with _ | b
    · simp
      omega
    · rcases b <;> simp <;> split_ifs <;> omega
  · intro s mer hsome
    have hs : s ≠ "" := by
      rintro rfl
      simp [findTime] at hsome
    unfold parseTime
    rw [if_neg hs, hsome]
    rcases mer with _ | b
    · simp
    · rcases b <;> simp

/-- C2 witness: the bounded-range conjunct applied at `"3:15 PM"`, whose
match yields hour 3 with a `PM` marker. -/
theorem parseTime_spec_witness : parseTime "3:15 PM" ≤ 23 :=
  parseTime_spec.2.2.2.2.2.1 "3:15 PM" 3 (some true) (by decide) (by decide)

/-- C5: a session row is retained by the schedule decoder iff its activity
label, lower-cased, contains the substring `"leisure skate"` or
`"leisure ice"` (the `keepRow` predicate); a payload with one
`"Leisure Skate"` row and one `"Shinny Hockey"` row yields exactly the one
leisure session. -/
theorem extractSessions_leisure_filter :
    (∀ (data : List ScheduleItem) (s : Session),
        s ∈ extractSessions data ↔
          ∃ it ∈ data, ∃ row ∈ it.r.getD [], keepRow row = true ∧ s = mkSession row) ∧
    extractSessions [⟨some [leisureRow, shinnyRow]⟩] = [mkSession leisureRow] := by
  constructor
  · intro data s
    rw [extractSessions_eq]
    simp only [List.mem_flatMap, List.mem_map, List.mem_filter]
    constructor
    · rintro ⟨it, hit, row, ⟨hrow, hkeep⟩, heq⟩
      exact ⟨it, hit, row, hrow, hkeep, heq.symm⟩
    · rintro ⟨it, hit, row, hrow, hkeep, heq⟩
      exact ⟨it, hit, row, ⟨hrow, hkeep⟩, heq.symm⟩
  · decide

/-- C5 witness: the leisure row's session is retained from the concrete
two-row payload. -/
theorem extractSessions_leisure_filter_witness :
    mkSession leisureRow ∈ extractSessions [⟨some [leisureRow, shinnyRow]⟩] :=
  (extractSessions_leisure_filter.1 [⟨some [leisureRow, shinnyRow]⟩] (mkSession leisureRow)).mpr
    (by decide)

/-- The cache contents after one `fetchAllSessions` call with a reference
location and `anyDistance` false: the filter callback has written a
`distance` onto the cached rink. -/
def cacheAfterLocCall : List Rink :=
  (fetchAllSessions dist1 oneSession "2024-01-01" [rinkA] (some locZero) fDefault).2

/-- C9: a call with no reference location on a fresh cache attaches no
distance, but after an earlier call that did supply a location, a
location-less call returns the cached rink — and embeds rink snapshots in
its session entries — still carrying the stale attached distance. -/
theorem stale_distance_leaks_into_locationless_call :
    ((fetchAllSessions dist1 oneSession "2024-01-01" [rinkA] none fDefault).1.rinks.map
      (fun rink => rink.distance) = [none]) ∧
    cacheAfterLocCall = [{ rinkA with distance := some 1 }] ∧
    ((fetchAllSessions dist1 oneSession "2024-01-01" cacheAfterLocCall none fDefault).1.rinks.map
      (fun rink => rink.distance) = [some 1]) ∧
    ((fetchAllSessions dist1 oneSession "2024-01-01" cacheAfterLocCall none fDefault).1.sessions.map
      (fun e => e.rink.distance) = [some 1]) := by
  decide

/-- C3 witness: the characterization and the isolation conjunct applied to
a one-rink catalog where every fetch times out, compared against one where
every fetch fails inside `fetchSchedule`. -/
theorem fetchAllSessions_partial_failure_isolation_witness :
    ((fetchAllSessions dist1 timeoutAll "2024-01-01" [rinkA] none fDefault).1.sessions
      = sortEntries (applyTimeFilters
          ((filteredRinksOf dist1 [rinkA] none fDefault).flatMap
            (fun rink => (contribSessions timeoutAll rink.id).map
              (fun session => { rink := snapshotOf rink, session := session })))
          fDefault "2024-01-01"))
    ∧ fetchAllSessions dist1 timeoutAll "2024-01-01" [rinkA] none fDefault
        = fetchAllSessions dist1 errorAll "2024-01-01" [rinkA] none fDefault :=
  ⟨(fetchAllSessions_partial_failure_isolation dist1 timeoutAll "2024-01-01" [rinkA] none
      fDefault).1,
    (fetchAllSessions_partial_failure_isolation dist1 timeoutAll "2024-01-01" [rinkA] none
      fDefault).2 errorAll (fun _ => rfl)⟩

/-- C4 witness: with the latitude distance function, a 5-rink-km limit
default configuration, and rinks at distances 0 and 50, the returned rink
list equals the fetch-target list and the surviving rink is within the
limit. -/
theorem fetchAllSessions_distance_exclusion_witness :
    ((fetchAllSessions distLat oneSession "2024-01-01" [rinkA, rinkFar] (some locZero)
        fDefault).1.rinks
      = scheduleFetchTargets distLat [rinkA, rinkFar] (some locZero) fDefault)
    ∧ distLat locZero.lat locZero.lng rinkA.lat rinkA.lng ≤ maxDistanceOr10 fDefault.maxDistance :=
  ⟨(fetchAllSessions_distance_exclusion distLat oneSession "2024-01-01" [rinkA, rinkFar] locZero
      fDefault rfl).1,
    (fetchAllSessions_distance_exclusion distLat oneSession "2024-01-01" [rinkA, rinkFar] locZero
      fDefault rfl).2 { rinkA with distance := some 0 } (by decide)⟩

/-- A concrete session entry whose parsed hour is 9 (morning). -/
def morningEntry : SessionEntry :=
  { rink := rinkA
    session :=
      { activity := some "Leisure Skate", date := "2024-01-05", time := "9:00 AM",
        age := "All Ages", facility := "F" } }

/-- C6 witness: the characterization applied to a one-entry list under the
morning filter. -/
theorem applyTimeFilters_spec_witness :
    morningEntry ∈ applyTimeFilters [morningEntry] { fDefault with timeOfDay := "morning" }
      "2024-01-01" :=
  (applyTimeFilters_spec [morningEntry] { fDefault with timeOfDay := "morning" } "2024-01-01"
    morningEntry (Or.inr (Or.inl rfl)) (Or.inl rfl)).mpr (by decide)

/-- C10 witness: the default-10 equality and the 10 km bound applied to a
one-rink catalog at distance 1. -/
theorem fetchAllSessions_maxDistance_defaults_to_10_witness :
    (fetchAllSessions dist1 oneSession "2024-01-01" [rinkA] (some locZero)
        { fDefault with anyDistance := false, maxDistance := none }
      = fetchAllSessions dist1 oneSession "2024-01-01" [rinkA] (some locZero)
        { fDefault with anyDistance := false, maxDistance := some 10 })
    ∧ dist1 locZero.lat locZero.lng rinkA.lat rinkA.lng ≤ 10 :=
  ⟨(fetchAllSessions_maxDistance_defaults_to_10 dist1 oneSession "2024-01-01" [rinkA]
      (some locZero) locZero fDefault).1,
    (fetchAllSessions_maxDistance_defaults_to_10 dist1 oneSession "2024-01-01" [rinkA]
      (some locZero) locZero fDefault).2.2 { rinkA with distance := some 1 } (by decide)⟩

end TFS
